import Mathlib

/-!
Verification of the `pip_search` package search client
(`src/pip_search/pip_search.py`) against its natural-language
specification.

The Python module is shallowly embedded: pure computations become Lean
functions over `String`, `List`, `Nat` and `Int`; code that can raise a
Python exception returns `Except PyErr`; the HTTP transport, the HTML
selector library, the regular-expression engine, `hashlib.sha256`,
`urllib.parse.urljoin` and `datetime.strptime` are collaborators outside
this repository, so their observable outputs enter the model as explicit
inputs (match lists, element texts, response statuses and bodies) or as
function parameters, while every decision the repository code itself makes
on those outputs is modelled faithfully.
-/

/-- Python exception kinds that the embedded code can surface.
`protocolError` does not correspond to anything in the source: the
specification names a typed `ProtocolError`, and the constructor exists
only so that theorems can state that the code never produces it. -/
inductive PyErr where
  | attributeError
  | indexError
  | valueError
  | typeError
  | keyError
  | jsonDecodeError
  | protocolError
  deriving DecidableEq

/-- Embeds the Python idiom `re.findall(pattern, text)[0]`: indexing the
first element of a match list, raising `IndexError` when the list is
empty (lines 85 and 95 of the source). The regex engine itself is a
collaborator; the match list is its output. -/
def findallFirst {α : Type} : List α → Except PyErr α
  | [] => .error .indexError
  | x :: _ => .ok x

/-! ## Python string primitives used by the source -/

/-- Python whitespace for `str.split()` / `str.strip()` / the regex `\s`
(ASCII range; the pages involved are ASCII). -/
def isPySpace (c : Char) : Bool :=
  c = ' ' || c = '\t' || c = '\n' || c = '\r' || c = '\x0b' || c = '\x0c'

/-- Worker for `pySplitWs`: `cur` accumulates the current word reversed. -/
def splitWsGo (cur : List Char) : List Char → List (List Char)
  | [] => if cur.isEmpty then [] else [cur.reverse]
  | c :: rest =>
    if isPySpace c then
      if cur.isEmpty then splitWsGo [] rest
      else cur.reverse :: splitWsGo [] rest
    else splitWsGo (c :: cur) rest

/-- Python `str.split()` with no separator: splits on runs of whitespace
and never returns empty words. -/
def pySplitWs (s : String) : List String :=
  (splitWsGo [] s.data).map String.mk

/-- Python `str.strip()`: removes leading and trailing whitespace. -/
def pyStrip (s : String) : String :=
  String.mk (((s.data.dropWhile isPySpace).reverse.dropWhile isPySpace).reverse)

/-- Worker for `collapseWs`; the flag records whether the previous
character was whitespace. -/
def collapseGo (inWs : Bool) : List Char → List Char
  | [] => []
  | c :: rest =>
    if isPySpace c then
      if inWs then collapseGo true rest else ' ' :: collapseGo true rest
    else c :: collapseGo false rest

/-- Python `re.sub(whitespaceRun, singleSpace, s)`: every maximal run of
whitespace becomes one space (lines 143, 152, 153 of the source). -/
def collapseWs (s : String) : String :=
  String.mk (collapseGo false s.data)

/-- Substring test on character lists. -/
def containsSubL (pat : List Char) : List Char → Bool
  | [] => pat.isEmpty
  | c :: rest => pat.isPrefixOf (c :: rest) || containsSubL pat rest

/-- Python `pat in s` for strings: substring containment. -/
def strContains (s pat : String) : Bool :=
  containsSubL pat.data s.data

/-- Worker for `pyReplace`, fuelled so that the recursion is structural;
fuel equal to the haystack length is always sufficient because every
step consumes at least one character (the replacement branch is guarded
by a non-empty pattern). -/
def replaceFuel (pat rep : List Char) : Nat → List Char → List Char
  | _, [] => []
  | 0, hay => hay
  | fuel + 1, c :: rest =>
    if pat.isPrefixOf (c :: rest) && !pat.isEmpty then
      rep ++ replaceFuel pat rep fuel (List.drop pat.length (c :: rest))
    else
      c :: replaceFuel pat rep fuel rest

/-- Python `s.replace(pat, rep)` for a non-empty `pat`: replaces every
non-overlapping occurrence, scanning left to right (line 223 of the
source uses it with the pattern `/tags`). -/
def pyReplace (s pat rep : String) : String :=
  String.mk (replaceFuel pat.data rep.data s.data.length s.data)

/-! ## PoW solver (source lines 97-107)

The loop brute-forces a two-character suffix over
`string.ascii_letters + string.digits`. `hashlib.sha256(...).hexdigest()`
is a stdlib collaborator; the solver is parameterised by the hex-digest
function `h`, exactly as the loop body uses it: it only compares
`h (base ++ suffix)` with the target. -/

/-- `string.ascii_letters + string.digits`: lowercase, then uppercase,
then digits, in this order. -/
def characters : List Char :=
  "abcdefghijklmnopqrstuvwxyzABCDEFGHIJKLMNOPQRSTUVWXYZ0123456789".data

/-- Inner loop (`for c2 in characters`): returns `c1c2` for the first
`c2` whose digest matches, and the running value (the empty string)
when none matches. -/
def solveInner (h : String → String) (base target : String) (c1 : Char) :
    List Char → String
  | [] => ""
  | c2 :: rest =>
    if h (base ++ String.mk [c1, c2]) = target then String.mk [c1, c2]
    else solveInner h base target c1 rest

/-- Outer loop (`for c1 in characters` with `if answer: break`): a
non-empty inner answer stops the search. -/
def solveOuter (h : String → String) (base target : String) :
    List Char → String
  | [] => ""
  | c1 :: rest =>
    let answer := solveInner h base target c1 characters
    if answer ≠ "" then answer else solveOuter h base target rest

/-- The PoW answer computation of lines 97-107, for digest function `h`. -/
def solve (h : String → String) (base target : String) : String :=
  solveOuter h base target characters

/-- The full two-character keyspace in exactly the enumeration order of
the nested loops: first character outer, second character inner. -/
def allPairs : List String :=
  characters.flatMap (fun c1 => characters.map (fun c2 => String.mk [c1, c2]))

/-! ### Solver lemmas -/

theorem mk_two_ne_empty (c1 c2 : Char) : String.mk [c1, c2] ≠ "" := by
  intro hc
  have := congrArg String.data hc
  simp at this

theorem solveInner_eq_find (h : String → String) (base target : String)
    (c1 : Char) (l : List Char) :
    solveInner h base target c1 l =
      (((l.map (fun c2 => String.mk [c1, c2])).find?
        (fun s => h (base ++ s) == target)).getD "") := by
  induction l with
  | nil => rfl
  | cons c2 rest ih =>
    by_cases hc : h (base ++ String.mk [c1, c2]) = target
    · simp [solveInner, hc, List.find?_cons_of_pos]
    · rw [List.map_cons, List.find?_cons_of_neg]
      · simp [solveInner, hc, ih]
      · simp [hc]

theorem solveOuter_eq_find (h : String → String) (base target : String)
    (l : List Char) :
    solveOuter h base target l =
      (((l.flatMap (fun c1 => characters.map (fun c2 => String.mk [c1, c2]))).find?
        (fun s => h (base ++ s) == target)).getD "") := by
  induction l with
  | nil => rfl
  | cons c1 rest ih =>
    rw [List.flatMap_cons, List.find?_append]
    cases hf : (characters.map (fun c2 => String.mk [c1, c2])).find?
        (fun s => h (base ++ s) == target) with
    | none =>
      have hinner : solveInner h base target c1 characters = "" := by
        rw [solveInner_eq_find, hf]; rfl
      simp [solveOuter, hinner, ih]
    | some s =>
      have hmem := List.mem_of_find?_eq_some hf
      obtain ⟨c2, _, hs⟩ := List.mem_map.mp hmem
      have hne : s ≠ "" := hs ▸ mk_two_ne_empty c1 c2
      have hinner : solveInner h base target c1 characters = s := by
        rw [solveInner_eq_find, hf]; rfl
      simp [solveOuter, hinner, hne]

/-- The solver returns the first element of `allPairs` whose digest
matches the target, and the empty string when none does. -/
theorem solve_eq_find (h : String → String) (base target : String) :
    solve h base target =
      ((allPairs.find? (fun s => h (base ++ s) == target)).getD "") :=
  solveOuter_eq_find h base target characters

theorem find?_eq_get_of_first {α : Type} (p : α → Bool) (l : List α)
    (i : Nat) (hi : i < l.length) (hp : p (l.get ⟨i, hi⟩) = true)
    (hf : ∀ j, (hj : j < i) → p (l.get ⟨j, Nat.lt_trans hj hi⟩) = false) :
    l.find? p = some (l.get ⟨i, hi⟩) := by
  induction l generalizing i with
  | nil => exact absurd hi (Nat.not_lt_zero i)
  | cons a l ih =>
    cases i with
    | zero => exact List.find?_cons_of_pos l hp
    | succ n =>
      have ha : p a = false := hf 0 (Nat.succ_pos n)
      rw [List.find?_cons_of_neg l (by simp [ha])]
      exact ih n (Nat.lt_of_succ_lt_succ hi) hp
        (fun j hj => hf (j + 1) (Nat.succ_lt_succ hj))

/-! ## Date parsing and the Package data model (source lines 18-64)

`datetime.strptime` is a stdlib collaborator declared out of scope by the
specification; `strptimeIso` models it for the one fixed format the
source uses. -/

/-- Timestamp with a timezone offset in minutes, the result of parsing
with the format `%Y-%m-%dT%H:%M:%S%z`. -/
structure DateTime where
  year : Nat
  month : Nat
  day : Nat
  hour : Nat
  minute : Nat
  second : Nat
  tzMinutes : Int
  deriving DecidableEq

/-- Reads exactly `n` decimal digits, accumulating into `acc`. -/
def readDigitsAux : Nat → Nat → List Char → Option (Nat × List Char)
  | acc, 0, cs => some (acc, cs)
  | _, _ + 1, [] => none
  | acc, n + 1, c :: cs =>
    if c.isDigit then readDigitsAux (acc * 10 + (c.toNat - 48)) n cs else none

/-- Consumes one expected literal character. -/
def expectChar (c : Char) : List Char → Option (List Char)
  | [] => none
  | x :: xs => if x = c then some xs else none

/-- Reads the digits of a timezone offset after the sign: `HH:MM` or
`HHMM`. -/
def readTzOffset (sign : Int) (r : List Char) : Option (Int × List Char) := do
  let (hh, r1) ← readDigitsAux 0 2 r
  let r2 := match expectChar ':' r1 with
    | some x => x
    | none => r1
  let (mm, r3) ← readDigitsAux 0 2 r2
  some (sign * ((hh : Int) * 60 + (mm : Int)), r3)

/-- Reads the `%z` directive: `Z`, or a signed offset. -/
def readTz : List Char → Option (Int × List Char)
  | 'Z' :: r => some (0, r)
  | '+' :: r => readTzOffset 1 r
  | '-' :: r => readTzOffset (-1) r
  | _ => none

/-- Modelled from the spec: `datetime.strptime(s, "%Y-%m-%dT%H:%M:%S%z")`
from the out-of-scope date/time collaborator (used at source line 43);
`none` corresponds to the `ValueError` that `strptime` raises on a
malformed timestamp. -/
def strptimeIso (s : String) : Option DateTime := do
  let (y, r1) ← readDigitsAux 0 4 s.data
  let r2 ← expectChar '-' r1
  let (mo, r3) ← readDigitsAux 0 2 r2
  let r4 ← expectChar '-' r3
  let (d, r5) ← readDigitsAux 0 2 r4
  let r6 ← expectChar 'T' r5
  let (hh, r7) ← readDigitsAux 0 2 r6
  let r8 ← expectChar ':' r7
  let (mi, r9) ← readDigitsAux 0 2 r8
  let r10 ← expectChar ':' r9
  let (ss, r11) ← readDigitsAux 0 2 r10
  let (tz, r12) ← readTz r11
  if r12 = [] && 1 ≤ mo && mo ≤ 12 && 1 ≤ d && d ≤ 31 &&
      hh ≤ 23 && mi ≤ 59 && ss ≤ 61 then
    some ⟨y, mo, d, hh, mi, ss, tz⟩
  else
    none

/-- `Config.api_url` (source line 21). -/
def api_url : String := "https://pypi.org/search/"

/-- `Config.page_size` (source line 22). -/
def page_size : Nat := 2

/-- `Config.link_defualt_format` (source line 25, name kept with its
typo): the template string with the package name substituted for the
placeholder. -/
def link_defualt_format (name : String) : String :=
  "https://pypi.org/project/" ++ name

/-- The `Package` dataclass together with the attributes added by
`__post_init__` (source lines 31-48). -/
structure Package where
  name : String
  version : String
  released : String
  description : String
  link : String
  released_date : DateTime
  stars : Int
  forks : Int
  watchers : Int
  github_link : String
  info_set : Bool
  deriving DecidableEq

/-- Constructing a `Package` runs `__post_init__` (source lines 41-48):
the stored link is `link or default` (Python truthiness: both `None` and
the empty string fall back to the template), `released` is parsed with
`strptime` (raising `ValueError` on a malformed timestamp), and the
enrichment fields start at their defaults. -/
def mkPackage (name version released description : String)
    (link : Option String) : Except PyErr Package :=
  match strptimeIso released with
  | none => .error .valueError
  | some d =>
    .ok { name := name, version := version, released := released,
          description := description,
          link := match link with
            | none => link_defualt_format name
            | some l => if l = "" then link_defualt_format name else l,
          released_date := d,
          stars := 0, forks := 0, watchers := 0, github_link := "",
          info_set := false }

/-- The result of one GitHub API lookup: the `info` dict built by
`get_repo_info` (source line 165). -/
structure RepoInfo where
  stars : Int
  forks : Int
  watchers : Int
  github_link : String
  set : Bool
  deriving DecidableEq

/-- The defaults `get_repo_info` starts from (source line 165). -/
def infoDefault : RepoInfo :=
  { stars := 0, forks := 0, watchers := 0, github_link := "", set := false }

/-- `Package.set_gh_info` (source lines 59-64): copies all four counters
and marks the package looked-up, in one update. -/
def Package.set_gh_info (p : Package) (info : RepoInfo) : Package :=
  { p with stars := info.stars, forks := info.forks,
           watchers := info.watchers, github_link := info.github_link,
           info_set := true }

/-! ## GitHub API response mapping (source lines 163-197) -/

/-- The parsed JSON body of an API response, as far as the source
inspects it: a JSON object is an association list of integer counters;
`nonobj` is any well-formed JSON value that is not an object (on which
Python `.get` raises `AttributeError`). -/
inductive JsonBody where
  | obj (fields : List (String × Int))
  | nonobj
  deriving DecidableEq

/-- An HTTP response from the API collaborator: a status code and a
body; `body = none` means the body is not parseable as JSON, so
`r.json()` raises a JSON decode error. -/
structure Response where
  status : Nat
  body : Option JsonBody
  deriving DecidableEq

/-- Python `d.get(key, 0)` on a JSON object. -/
def jsonGet (fields : List (String × Int)) (key : String) : Int :=
  (fields.lookup key).getD 0

/-- `get_repo_info` (source lines 163-197). The `repo.split("github.com/")[1]`
indexing raises `IndexError` exactly when the separator does not occur,
and that error is caught and mapped to the defaults; the request itself
is the collaborator input `resp`. Status codes are tested in the order
401, 404, 403, 200. On 200, an unparseable body makes `r.json()` raise a
JSON decode error (a `ValueError` subclass) that the
`(KeyError, TypeError, AttributeError)` handler does not catch, so it
propagates; a well-formed non-object body raises `AttributeError` at the
first `.get`, which is caught and yields the defaults. Any status other
than 401, 404, 403 and 200 falls off the end of the function, returning
Python `None` (modelled as `.ok none`). -/
def get_repo_info (repo : String) (resp : Response) :
    Except PyErr (Option RepoInfo) :=
  if strContains repo "github.com/" = false then .ok (some infoDefault)
  else if resp.status = 401 then .ok (some infoDefault)
  else if resp.status = 404 then .ok (some infoDefault)
  else if resp.status = 403 then .ok (some infoDefault)
  else if resp.status = 200 then
    match resp.body with
    | none => .error .jsonDecodeError
    | some .nonobj => .ok (some infoDefault)
    | some (.obj fields) =>
      .ok (some { stars := jsonGet fields "stargazers_count",
                  forks := jsonGet fields "forks_count",
                  watchers := jsonGet fields "watchers_count",
                  github_link := repo, set := true })
  else .ok none

/-! ## Homepage link resolution (source lines 199-238) -/

/-- The two structural slots that `get_links` reads from the package
detail page: the `href` of the anchor at the primary CSS path (line 217)
and at the alternate CSS path (line 220); `none` means the selector
found no element, in which case `.attrs` raises `AttributeError`, which
the handler turns into `None`. -/
structure DetailPage where
  primarySlot : Option String
  altSlot : Option String
  deriving DecidableEq

/-- The dict returned by a successful `get_links`. -/
structure GhLinks where
  github : String
  homepage : String
  deriving DecidableEq

/-- `get_links` (source lines 208-230): take the primary slot; if its
URL contains "issues", re-resolve from the alternate slot; if the
resolved URL does not contain "github", return `None`; otherwise remove
every occurrence of the substring "/tags" from it for the `github`
entry and keep the resolved URL as `homepage`. -/
def get_links (page : DetailPage) : Option GhLinks :=
  match page.primarySlot with
  | none => none
  | some hp0 =>
    match (if strContains hp0 "issues" then page.altSlot else some hp0) with
    | none => none
    | some homepage =>
      if strContains homepage "github" then
        some { github := pyReplace homepage "/tags" "", homepage := homepage }
      else none

/-- Formalisation of the claim and spec wording for comparison with the
source: strip a trailing "/tags" path segment, leaving any other
occurrence alone. -/
def stripTrailingTagsSpec (s : String) : String :=
  if List.isSuffixOf "/tags".data s.data then
    String.mk (List.take (s.data.length - 5) s.data)
  else s

/-- `get_github_info` (source lines 199-206): resolve the links from the
detail page; when a GitHub link is found, delegate to `get_repo_info`,
otherwise return `None`. -/
def get_github_info (page : DetailPage) (resp : Response) :
    Except PyErr (Option RepoInfo) :=
  match get_links page with
  | none => .ok none
  | some l => get_repo_info l.github resp

/-! ## Per-snippet package extraction (source lines 141-161) -/

/-- One search-result snippet, by the pieces the loop body reads: the
anchor `href`, the name span (`none` when `select_one` finds no element,
in which case reading `.text` at line 143 raises `AttributeError`), the
text of the version span (present in the page but never read by the
code: line 145 is commented out), the created span with its nested
`<time>` child and `datetime` attribute (each layer optional, because
line 152 can fail at three points: `.find` on a missing span raises
`AttributeError`, subscripting a missing time element raises
`TypeError`, and a missing `datetime` attribute raises `KeyError`), and
the description element (`none` again raises `AttributeError` at
line 153). -/
structure Snippet where
  href : Option String
  nameText : Option String
  versionText : String
  createdSpan : Option (Option (Option String))
  descriptionText : Option String
  deriving DecidableEq

/-- The package detail page fetched at source line 147, by the one
element the code reads: the text of `h1.package-header__name`, `none`
when the selector finds nothing. -/
structure PkgDetailPage where
  headerNameText : Option String
  deriving DecidableEq

/-- Source line 150:
`version_element.text.split()[-1] if version_element else "Unknown"`.
Indexing `[-1]` raises `IndexError` when the split list is empty. -/
def extractVersion (headerNameText : Option String) : Except PyErr String :=
  match headerNameText with
  | none => .ok "Unknown"
  | some t =>
    match (pySplitWs t).getLast? with
    | none => .error .indexError
    | some v => .ok v

/-- Everything the network hands the loop body for one snippet: the
snippet itself, the detail page fetched at line 147, the detail page
fetched again inside `get_links` (line 210), and the GitHub API
response. -/
structure SnippetEnv where
  snippet : Snippet
  detail : PkgDetailPage
  linksPage : DetailPage
  apiResponse : Response

/-- Source line 143: the displayed name, stripped then
whitespace-collapsed; a missing name span makes the `.text` access raise
`AttributeError`, which nothing in `search` catches. -/
def snippetName (s : Snippet) : Except PyErr String :=
  match s.nameText with
  | none => .error .attributeError
  | some t => .ok (collapseWs (pyStrip t))

/-- Source line 152: the `datetime` attribute of the `<time>` child of
the created span, whitespace-collapsed (no strip in the source); a
missing span raises `AttributeError` at `.find`, a missing time element
raises `TypeError` at the subscript, and a missing attribute raises
`KeyError` — all uncaught. -/
def snippetReleased (s : Snippet) : Except PyErr String :=
  match s.createdSpan with
  | none => .error .attributeError
  | some none => .error .typeError
  | some (some none) => .error .keyError
  | some (some (some d)) => .ok (collapseWs d)

/-- Source line 153: the description, stripped then
whitespace-collapsed; a missing description element raises an uncaught
`AttributeError` at `.text`. -/
def snippetDescription (s : Snippet) : Except PyErr String :=
  match s.descriptionText with
  | none => .error .attributeError
  | some t => .ok (collapseWs (pyStrip t))

/-- The four extracted fields of one snippet in the evaluation order of
source lines 143-153: name, then the detail-page version, then the
release timestamp, then the description; the first raised exception
aborts the pass. -/
def snippetFields (env : SnippetEnv) :
    Except PyErr (String × String × String × String) :=
  match snippetName env.snippet with
  | .error e => .error e
  | .ok name =>
    match extractVersion env.detail.headerNameText with
    | .error e => .error e
    | .ok version =>
      match snippetReleased env.snippet with
      | .error e => .error e
      | .ok released =>
        match snippetDescription env.snippet with
        | .error e => .error e
        | .ok description => .ok (name, version, released, description)

/-- Source lines 156-159: when `extra` is set, the lookup result is
bound to `info` and `set_gh_info` runs under the Python truthiness test
`if info:` — a non-empty dict is truthy whatever its `set` flag says, so
any returned `RepoInfo` is applied; only Python `None` (absence) skips
the update. -/
def enrichStep (pack : Package) (extra : Bool)
    (gh : Except PyErr (Option RepoInfo)) : Except PyErr Package :=
  if extra then
    match gh with
    | .error e => .error e
    | .ok none => .ok pack
    | .ok (some info) => .ok (pack.set_gh_info info)
  else .ok pack

/-- The body of the snippet loop (source lines 141-161) for one snippet.
`j` is the `urllib.parse.urljoin` collaborator (line 142 resolves the
snippet href against the search endpoint). -/
def processSnippet (j : String → Option String → String)
    (env : SnippetEnv) (extra : Bool) : Except PyErr Package :=
  match snippetFields env with
  | .error e => .error e
  | .ok (name, version, released, description) =>
    match mkPackage name version released description
        (some (j api_url env.snippet.href)) with
    | .error e => .error e
    | .ok pack =>
      enrichStep pack extra (get_github_info env.linksPage env.apiResponse)

/-- The snippet loop over the accumulated snippet list, collecting the
yielded packages; a raised exception aborts the generator. -/
def processAll (j : String → Option String → String) (extra : Bool) :
    List SnippetEnv → Except PyErr (List Package)
  | [] => .ok []
  | env :: rest =>
    match processSnippet j env extra with
    | .error e => .error e
    | .ok p =>
      match processAll j extra rest with
      | .error e => .error e
      | .ok ps => .ok (p :: ps)

/-! ## The search entry point (source lines 67-161) -/

/-- The `opts` argument of `search`: either a plain dict (the default is
the empty dict `\x7b\x7d`) or an `argparse.Namespace`-style object
carrying the two recognised flags as attributes. -/
inductive OptsVal where
  | dict (entries : List (String × Bool))
  | nspace (debug extra : Option Bool)

/-- Python attribute access on `opts`. A dict never exposes its entries
as attributes, so `opts.debug` and `opts.extra` raise `AttributeError`
for every dict; a namespace object exposes exactly the attributes it
carries. -/
def getattr : OptsVal → String → Except PyErr Bool
  | .dict _, _ => .error .attributeError
  | .nspace d _, "debug" =>
    match d with
    | some b => .ok b
    | none => .error .attributeError
  | .nspace _ e, "extra" =>
    match e with
    | some b => .ok b
    | none => .error .attributeError
  | .nspace _ _, _ => .error .attributeError

/-- The PoW parameters extracted from `script.js` (source line 95). -/
structure PowParams where
  base : String
  hash : String
  hmac : String
  expires : String
  token : String

/-- The collaborator outputs one `search` invocation consumes: the match
list of the script-URL pattern on the search page (line 85), the match
list of the PoW-parameter pattern on the script body (line 95), and the
snippet environments the paginator collects for each page number. -/
structure SearchWorld where
  scriptJsMatches : List String
  powMatches : List PowParams
  pages : Nat → List SnippetEnv

/-- `search` (source lines 67-161), with the digest function `h` and the
`urljoin` collaborator `j` as parameters and the network abstracted into
`w`. The steps keep the source order: read `opts.debug` (line 74), index
the first script-URL match (line 85), index the first PoW match
(line 95), compute the PoW answer (lines 97-107), collect the snippets
of pages 1 through `page_size` (lines 119-123), read `opts.extra`
(line 126), then run the snippet loop. The generator body is modelled
eagerly: its value is the list of yielded packages or the first raised
exception. -/
def search (h : String → String) (j : String → Option String → String)
    (query : String) (opts : OptsVal) (w : SearchWorld) :
    Except PyErr (List Package) :=
  match getattr opts "debug" with
  | .error e => .error e
  | .ok _ =>
    match findallFirst w.scriptJsMatches with
    | .error e => .error e
    | .ok _path =>
      match findallFirst w.powMatches with
      | .error e => .error e
      | .ok pow =>
        let _answer := solve h pow.base pow.hash
        let snippets := (List.range' 1 page_size).flatMap w.pages
        match getattr opts "extra" with
        | .error e => .error e
        | .ok extra => processAll j extra snippets

/-- Observes the link of a successfully constructed package. -/
def resultLink : Except PyErr Package → Option String
  | .ok p => some p.link
  | .error _ => none

/-- Observes the `info_set` flag of a successfully yielded package. -/
def resultInfoSet : Except PyErr Package → Option Bool
  | .ok p => some p.info_set
  | .error _ => none

deriving instance DecidableEq for Except

/-! ## Claim C1: PoW solver correctness and determinism -/

/-- Claim C1: the solver enumerates the two-character suffixes with the
first character in the outer loop and the second in the inner loop over
lowercase letters, then uppercase letters, then digits (`allPairs` is
exactly that enumeration), and returns the first pair whose digest of
`base ++ pair` equals the target; in particular, a pair that matches
while every earlier pair fails to match is returned exactly. -/
theorem pow_solver_first_match (h : String → String) (base target : String)
    (i : Nat) (hi : i < allPairs.length)
    (hmatch : h (base ++ allPairs.get ⟨i, hi⟩) = target)
    (hfirst : ∀ j, (hj : j < i) →
      h (base ++ allPairs.get ⟨j, Nat.lt_trans hj hi⟩) ≠ target) :
    solve h base target = allPairs.get ⟨i, hi⟩ := by
  rw [solve_eq_find]
  rw [find?_eq_get_of_first (fun s => h (base ++ s) == target) allPairs i hi
    (by simp only [beq_iff_eq]; exact hmatch)
    (fun j hj => by simp only [beq_eq_false_iff_ne, ne_eq]; exact hfirst j hj)]
  rfl

theorem allPairs_length_pos : 0 < allPairs.length := by
  apply List.length_pos_of_mem
  apply List.mem_flatMap.mpr
  refine ⟨'a', by decide, ?_⟩
  exact List.mem_map.mpr ⟨'a', by decide, rfl⟩

/-- Witness for C1 at a concrete input: with a digest function that is
constantly the target, the very first pair of the enumeration, `"aa"`,
is returned. -/
theorem pow_solver_first_match_witness :
    solve (fun _ => "T") "" "T" = allPairs.get ⟨0, allPairs_length_pos⟩ ∧
    allPairs.get ⟨0, allPairs_length_pos⟩ = "aa" :=
  ⟨pow_solver_first_match (fun _ => "T") "" "T" 0 allPairs_length_pos rfl
      (fun j hj => absurd hj (Nat.not_lt_zero j)),
   by decide⟩

/-! ## Claim C5: PoW solver exhaustion -/

/-- Claim C5: when no two-character suffix drawn from the alphabet
matches the target, the solver terminates after the whole keyspace and
returns the empty string (it is a total function, so it neither loops
forever nor raises). -/
theorem pow_solver_exhaustion (h : String → String) (base target : String)
    (hnone : ∀ p ∈ allPairs, h (base ++ p) ≠ target) :
    solve h base target = "" := by
  rw [solve_eq_find]
  have hfind : allPairs.find? (fun s => h (base ++ s) == target) = none :=
    List.find?_eq_none.mpr (fun x hx => by simp [hnone x hx])
  rw [hfind]
  rfl

/-- Witness for C5: a digest function that never produces the target. -/
theorem pow_solver_exhaustion_witness :
    solve (fun _ => "x") "" "y" = "" :=
  pow_solver_exhaustion (fun _ => "x") "" "y"
    (fun p _ => by intro hc; simp at hc)

/-! ## Claim C7: version extraction from the detail page -/

/-- Claim C7: when the `package-header__name` element is present, the
version is the last whitespace-separated token of its text; when it is
absent, the version is the literal string "Unknown"; and the snippet's
own version text has no influence on the outcome of the loop body. -/
theorem version_from_detail_page :
    (∀ (t v : String) (toks : List String),
        pySplitWs t = toks ++ [v] → extractVersion (some t) = .ok v)
  ∧ extractVersion none = .ok "Unknown"
  ∧ (∀ (j : String → Option String → String) (env : SnippetEnv)
        (extra : Bool) (vt : String),
        processSnippet j
          { env with snippet := { env.snippet with versionText := vt } } extra
          = processSnippet j env extra) := by
  refine ⟨?_, rfl, ?_⟩
  · intro t v toks ht
    simp [extractVersion, ht, List.getLast?_concat]
  · intro j env extra vt
    rfl

/-- Witness for C7: the header text "pip 25.2" gives version "25.2". -/
theorem version_from_detail_page_witness :
    extractVersion (some "pip 25.2") = .ok "25.2" :=
  version_from_detail_page.1 "pip 25.2" "25.2" ["pip"] (by decide)

/-! ## Claim C10: the "Unknown" fallback is not total -/

theorem splitWsGo_nil_of_all_space :
    ∀ (l : List Char), (∀ c ∈ l, isPySpace c = true) → splitWsGo [] l = []
  | [], _ => rfl
  | c :: rest, hall => by
    have hc : isPySpace c = true := hall c (by simp)
    have ih := splitWsGo_nil_of_all_space rest (fun d hd => hall d (by simp [hd]))
    simp [splitWsGo, hc, ih]

/-- Claim C10: when the `package-header__name` element is present but
its text is empty or whitespace-only, `text.split()` is empty, so the
`[-1]` indexing raises `IndexError` instead of producing "Unknown". -/
theorem version_fallback_not_total (t : String)
    (hws : ∀ c ∈ t.data, isPySpace c = true) :
    extractVersion (some t) = .error .indexError
      ∧ extractVersion (some t) ≠ .ok "Unknown" := by
  have hsplit : pySplitWs t = [] := by
    simp [pySplitWs, splitWsGo_nil_of_all_space t.data hws]
  constructor
  · simp [extractVersion, hsplit]
  · simp [extractVersion, hsplit]

/-- Witness for C10: a single-space header text. -/
theorem version_fallback_not_total_witness :
    extractVersion (some " ") = .error .indexError ∧
    extractVersion (some " ") ≠ .ok "Unknown" :=
  version_fallback_not_total " " (by decide)

/-! ## Claim C8: default link -/

/-- Counterexample to C8 as stated: the claim says an explicitly
supplied link is kept unchanged, but a supplied empty-string link is
falsy under the `link or default` idiom of `__post_init__`, so it is
replaced by the template link rather than kept. -/
theorem default_link_counterexample :
    resultLink (mkPackage "foo" "1.0" "2023-05-01T00:00:00+00:00" "desc"
        (some ""))
      = some "https://pypi.org/project/foo"
  ∧ "https://pypi.org/project/foo" ≠ "" :=
  ⟨rfl, by decide⟩

/-- Claim C8 amended: a `None` link and an empty-string link both fall
back to the template link built from the name; any non-empty supplied
link is kept unchanged (for any `released` string that `strptime`
accepts, so that construction succeeds). -/
theorem default_link_amended (name version released description : String)
    (d : DateTime) (hd : strptimeIso released = some d) :
    resultLink (mkPackage name version released description none)
      = some (link_defualt_format name)
  ∧ resultLink (mkPackage name version released description (some ""))
      = some (link_defualt_format name)
  ∧ ∀ l : String, l ≠ "" →
      resultLink (mkPackage name version released description (some l))
        = some l := by
  refine ⟨by simp [mkPackage, hd, resultLink],
          by simp [mkPackage, hd, resultLink], ?_⟩
  intro l hl
  simp [mkPackage, hd, resultLink, hl]

/-- Witness for the amended C8 at the concrete input of the claim. -/
theorem default_link_amended_witness :
    resultLink (mkPackage "foo" "1.0" "2023-05-01T00:00:00+00:00" "desc" none)
      = some (link_defualt_format "foo") :=
  (default_link_amended "foo" "1.0" "2023-05-01T00:00:00+00:00" "desc"
    ⟨2023, 5, 1, 0, 0, 0, 0⟩ (by decide)).1

/-! ## Claim C3: repository enricher status mapping -/

/-- Counterexample to C3 as stated: on 200 with an unparseable body the
JSON decode error propagates (the function does raise past this
boundary), and on any status outside 200/401/403/404 the function
returns Python `None`, not a defaults `RepoInfo` with `set = false`. -/
theorem repo_info_counterexample :
    get_repo_info "https://github.com/a/b" ⟨200, none⟩
      = .error .jsonDecodeError
  ∧ get_repo_info "https://github.com/a/b" ⟨500, some (.obj [])⟩ = .ok none
  ∧ (Except.ok (some infoDefault) : Except PyErr (Option RepoInfo))
      ≠ .ok none := by
  refine ⟨by decide, by decide, by simp⟩

/-- Claim C3 amended: with "github.com/" present in the repo URL, the
mapping is: 200 with a JSON object body gives `set = true` and the three
counters read with default 0 and the original URL; 401, 403 and 404 give
the defaults with `set = false`; 200 with well-formed but non-object
JSON gives the defaults (the `AttributeError` from `.get` is caught);
200 with an unparseable body raises the JSON decode error past the
boundary; every other status returns `None` rather than a `RepoInfo`;
and a URL without "github.com/" gives the defaults. -/
theorem repo_info_status_mapping :
    (∀ (repo : String) (resp : Response) (fields : List (String × Int)),
      strContains repo "github.com/" = true → resp.status = 200 →
      resp.body = some (.obj fields) →
      get_repo_info repo resp = .ok (some
        { stars := jsonGet fields "stargazers_count",
          forks := jsonGet fields "forks_count",
          watchers := jsonGet fields "watchers_count",
          github_link := repo, set := true }))
  ∧ (∀ (repo : String) (resp : Response),
      strContains repo "github.com/" = true →
      (resp.status = 401 ∨ resp.status = 403 ∨ resp.status = 404) →
      get_repo_info repo resp = .ok (some infoDefault))
  ∧ (∀ (repo : String) (resp : Response),
      strContains repo "github.com/" = true → resp.status = 200 →
      resp.body = some .nonobj →
      get_repo_info repo resp = .ok (some infoDefault))
  ∧ (∀ (repo : String) (resp : Response),
      strContains repo "github.com/" = true → resp.status = 200 →
      resp.body = none →
      get_repo_info repo resp = .error .jsonDecodeError)
  ∧ (∀ (repo : String) (resp : Response),
      strContains repo "github.com/" = true →
      resp.status ≠ 200 → resp.status ≠ 401 → resp.status ≠ 403 →
      resp.status ≠ 404 → get_repo_info repo resp = .ok none)
  ∧ (∀ (repo : String) (resp : Response),
      strContains repo "github.com/" = false →
      get_repo_info repo resp = .ok (some infoDefault)) := by
  refine ⟨?_, ?_, ?_, ?_, ?_, ?_⟩
  · intro repo resp fields h1 h2 h3
    simp [get_repo_info, h1, h2, h3]
  · intro repo resp h1 h2
    rcases h2 with h2 | h2 | h2 <;> simp [get_repo_info, h1, h2]
  · intro repo resp h1 h2 h3
    simp [get_repo_info, h1, h2, h3]
  · intro repo resp h1 h2 h3
    simp [get_repo_info, h1, h2, h3]
  · intro repo resp h1 h2 h3 h4 h5
    simp [get_repo_info, h1, h2, h3, h4, h5]
  · intro repo resp h1
    simp [get_repo_info, h1]

/-- Witness for the amended C3: a 200 response whose JSON object holds
only a star count. -/
theorem repo_info_status_mapping_witness :
    get_repo_info "https://github.com/a/b"
        ⟨200, some (.obj [("stargazers_count", 7)])⟩
      = .ok (some
        { stars := jsonGet [("stargazers_count", 7)] "stargazers_count",
          forks := jsonGet [("stargazers_count", 7)] "forks_count",
          watchers := jsonGet [("stargazers_count", 7)] "watchers_count",
          github_link := "https://github.com/a/b", set := true }) :=
  repo_info_status_mapping.1 "https://github.com/a/b"
    ⟨200, some (.obj [("stargazers_count", 7)])⟩ [("stargazers_count", 7)]
    (by decide) rfl rfl

/-! ## Claim C6: homepage link resolution -/

/-- Counterexample to C6 as stated: the claim says the github link is
the resolved link with a trailing "/tags" path segment stripped, but the
code removes every occurrence of the substring "/tags": on a link with a
non-trailing "/tags" segment the spec-side trailing strip leaves the
link unchanged while the code rewrites it. -/
theorem homepage_link_counterexample :
    get_links ⟨some "https://github.com/a/tags/b", none⟩
      = some { github := "https://github.com/a/b",
               homepage := "https://github.com/a/tags/b" }
  ∧ stripTrailingTagsSpec "https://github.com/a/tags/b"
      = "https://github.com/a/tags/b"
  ∧ "https://github.com/a/b" ≠ "https://github.com/a/tags/b" :=
  ⟨by decide, by decide, by decide⟩

/-- Claim C6 amended: if the primary slot link contains "issues" the
alternate slot link is used instead; if the resolved link does not
contain "github" the resolver returns `none`; otherwise it returns the
resolved link as homepage together with a github link equal to the
resolved link with every occurrence of the substring "/tags" removed
(not only a trailing path segment); a missing slot resolves to `none`. -/
theorem homepage_link_amended :
    (∀ (hp : String) (alt : Option String), strContains hp "issues" = false →
      strContains hp "github" = true →
      get_links ⟨some hp, alt⟩
        = some { github := pyReplace hp "/tags" "", homepage := hp })
  ∧ (∀ (hp alt : String), strContains hp "issues" = true →
      strContains alt "github" = true →
      get_links ⟨some hp, some alt⟩
        = some { github := pyReplace alt "/tags" "", homepage := alt })
  ∧ (∀ (hp : String) (alt : Option String), strContains hp "issues" = false →
      strContains hp "github" = false → get_links ⟨some hp, alt⟩ = none)
  ∧ (∀ (hp alt : String), strContains hp "issues" = true →
      strContains alt "github" = false →
      get_links ⟨some hp, some alt⟩ = none)
  ∧ (∀ hp : String, strContains hp "issues" = true →
      get_links ⟨some hp, none⟩ = none)
  ∧ (∀ alt : Option String, get_links ⟨none, alt⟩ = none) := by
  refine ⟨?_, ?_, ?_, ?_, ?_, ?_⟩
  · intro hp alt h1 h2
    simp [get_links, h1, h2]
  · intro hp alt h1 h2
    simp [get_links, h1, h2]
  · intro hp alt h1 h2
    simp [get_links, h1, h2]
  · intro hp alt h1 h2
    simp [get_links, h1, h2]
  · intro hp h1
    simp [get_links, h1]
  · intro alt
    simp [get_links]

/-- Witness for the amended C6: a plain GitHub homepage link passes
through with all-occurrence "/tags" removal (a no-op here). -/
theorem homepage_link_amended_witness :
    get_links ⟨some "https://github.com/x", none⟩
      = some { github := pyReplace "https://github.com/x" "/tags" "",
               homepage := "https://github.com/x" } :=
  homepage_link_amended.1 "https://github.com/x" none (by decide) (by decide)

/-! ## Snippet-loop analysis lemmas -/

theorem mkPackage_defaults {name version released description : String}
    {link : Option String} {p : Package}
    (hm : mkPackage name version released description link = .ok p) :
    p.stars = 0 ∧ p.forks = 0 ∧ p.watchers = 0 ∧ p.github_link = ""
      ∧ p.info_set = false := by
  cases hp : strptimeIso released with
  | none => simp [mkPackage, hp] at hm
  | some d =>
    simp [mkPackage, hp] at hm
    subst hm
    exact ⟨rfl, rfl, rfl, rfl, rfl⟩

theorem processSnippet_fields_error {j : String → Option String → String}
    {env : SnippetEnv} {extra : Bool} {e : PyErr}
    (hf : snippetFields env = .error e) :
    processSnippet j env extra = .error e := by
  unfold processSnippet
  rw [hf]

theorem processSnippet_fields_ok {j : String → Option String → String}
    {env : SnippetEnv} {extra : Bool}
    {name version released description : String}
    (hf : snippetFields env = .ok (name, version, released, description)) :
    processSnippet j env extra =
      match mkPackage name version released description
          (some (j api_url env.snippet.href)) with
      | .error e => .error e
      | .ok pack =>
        enrichStep pack extra (get_github_info env.linksPage env.apiResponse)
    := by
  unfold processSnippet
  rw [hf]

/-- Full case analysis of one pass of the snippet loop: it either raises
some exception (a missing snippet element, the version indexing, the
timestamp parse or the JSON decode), or yields a package that is either
entirely at the enrichment defaults or entirely populated from the
`RepoInfo` the lookup chain returned (whatever its `set` flag). -/
theorem processSnippet_analysis (j : String → Option String → String)
    (env : SnippetEnv) (extra : Bool) :
    (∃ e, processSnippet j env extra = .error e)
  ∨ (∃ p, processSnippet j env extra = .ok p ∧
       ((p.stars = 0 ∧ p.forks = 0 ∧ p.watchers = 0 ∧ p.github_link = ""
           ∧ p.info_set = false)
        ∨ (extra = true ∧ ∃ i, get_github_info env.linksPage env.apiResponse
              = .ok (some i) ∧ p.stars = i.stars ∧ p.forks = i.forks
              ∧ p.watchers = i.watchers ∧ p.github_link = i.github_link
              ∧ p.info_set = true))) := by
  cases hf : snippetFields env with
  | error e => exact Or.inl ⟨e, processSnippet_fields_error hf⟩
  | ok fields =>
    obtain ⟨name, version, released, description⟩ := fields
    rw [processSnippet_fields_ok hf]
    cases hm : mkPackage name version released description
        (some (j api_url env.snippet.href)) with
    | error e2 => exact Or.inl ⟨e2, rfl⟩
    | ok pack =>
      cases extra with
      | false =>
        exact Or.inr ⟨pack, rfl, Or.inl (mkPackage_defaults hm)⟩
      | true =>
        cases hg : get_github_info env.linksPage env.apiResponse with
        | error e3 => exact Or.inl ⟨e3, rfl⟩
        | ok oinfo =>
          cases oinfo with
          | none =>
            exact Or.inr ⟨pack, rfl, Or.inl (mkPackage_defaults hm)⟩
          | some info =>
            exact Or.inr ⟨pack.set_gh_info info, rfl,
              Or.inr ⟨rfl, info, rfl, rfl, rfl, rfl, rfl, rfl⟩⟩

/-! ## Claim C2: enrichment atomicity -/

/-- Collaborator stand-ins used in concrete runs. -/
def hStub : String → String := fun _ => ""

/-- Concrete `urljoin` stand-in: the href when present, the base URL
otherwise. -/
def jStub : String → Option String → String := fun b o => o.getD b

def cexSnippet : Snippet :=
  { href := some "https://pypi.org/project/foo/", nameText := some "foo",
    versionText := "1.0",
    createdSpan := some (some (some "2023-05-01T00:00:00+00:00")),
    descriptionText := some "a package" }

def cexEnv : SnippetEnv :=
  { snippet := cexSnippet, detail := { headerNameText := some "foo 1.0" },
    linksPage := { primarySlot := some "https://github.com/a/b",
                   altSlot := none },
    apiResponse := { status := 404, body := some (.obj []) } }

/-- Counterexample to C2 as stated: the claim says `set_gh_info` is
invoked only when the lookup succeeded (`set = true`), but on a 404 the
lookup chain returns a defaults dict with `set = false`, which is truthy
under `if info:`, so `set_gh_info` runs and the yielded package is
observable with `info_set = true` for a failed lookup. -/
theorem enrichment_counterexample :
    get_github_info cexEnv.linksPage cexEnv.apiResponse
      = .ok (some infoDefault)
  ∧ infoDefault.set = false
  ∧ resultInfoSet (processSnippet jStub cexEnv true) = some true :=
  ⟨by decide, rfl, by decide⟩

/-- Claim C2 amended: every package yielded by the loop body either
carries all enrichment defaults (`stars = forks = watchers = 0`, empty
`github_link`, `info_set = false`), or `extra` was set and all four
fields were copied together with `info_set := true` in one atomic
`set_gh_info` update from the `RepoInfo` the lookup chain returned —
which happens whenever the chain returns a dict, regardless of its `set`
flag, so a failed lookup (`set = false`) can also be applied; no
partially populated enrichment state is ever observable. -/
theorem enrichment_all_or_nothing (j : String → Option String → String)
    (env : SnippetEnv) (extra : Bool) (p : Package)
    (hp : processSnippet j env extra = .ok p) :
    (p.stars = 0 ∧ p.forks = 0 ∧ p.watchers = 0 ∧ p.github_link = ""
        ∧ p.info_set = false)
  ∨ (extra = true ∧ ∃ i, get_github_info env.linksPage env.apiResponse
        = .ok (some i) ∧ p.stars = i.stars ∧ p.forks = i.forks
        ∧ p.watchers = i.watchers ∧ p.github_link = i.github_link
        ∧ p.info_set = true) := by
  rcases processSnippet_analysis j env extra with ⟨e, he⟩ | ⟨p2, hq, hcase⟩
  · rw [hp] at he
    exact absurd he (by simp)
  · rw [hp] at hq
    obtain rfl : p = p2 := Except.ok.inj hq
    exact hcase

def cexPackage : Package :=
  { name := "foo", version := "1.0",
    released := "2023-05-01T00:00:00+00:00", description := "a package",
    link := "https://pypi.org/project/foo/",
    released_date := { year := 2023, month := 5, day := 1, hour := 0,
                       minute := 0, second := 0, tzMinutes := 0 },
    stars := 0, forks := 0, watchers := 0, github_link := "",
    info_set := false }

/-- Witness for the amended C2: a concrete non-enriched run lands in the
all-defaults branch. -/
theorem enrichment_all_or_nothing_witness :
    (cexPackage.stars = 0 ∧ cexPackage.forks = 0 ∧ cexPackage.watchers = 0
        ∧ cexPackage.github_link = "" ∧ cexPackage.info_set = false)
  ∨ (false = true ∧ ∃ i, get_github_info cexEnv.linksPage cexEnv.apiResponse
        = .ok (some i) ∧ cexPackage.stars = i.stars
        ∧ cexPackage.forks = i.forks ∧ cexPackage.watchers = i.watchers
        ∧ cexPackage.github_link = i.github_link
        ∧ cexPackage.info_set = true) :=
  enrichment_all_or_nothing jStub cexEnv false cexPackage (by decide)

/-! ## Claim C4: protocol failure typing -/

def noMatchWorld : SearchWorld :=
  { scriptJsMatches := [], powMatches := [], pages := fun _ => [] }

/-- Counterexample to C4 as stated: when the search page has no
script-URL match the negotiation fails with the generic built-in
`IndexError` from `findall(...)[0]` — the code defines no
`ProtocolError` type at all, so the failure is not the typed protocol
error the claim requires. -/
theorem protocol_error_counterexample :
    search hStub jStub "q" (.nspace (some false) (some false)) noMatchWorld
      = .error .indexError
  ∧ PyErr.indexError ≠ PyErr.protocolError :=
  ⟨rfl, by decide⟩

/-- Claim C4 amended: when the search page body has no script-URL match,
or the script body has no PoW-parameter match, the search call fails
with an uncaught generic `IndexError` (not a typed `ProtocolError`,
which does not exist in the code); the error is fatal to the current
search call and nothing is retried. -/
theorem protocol_error_amended (h : String → String)
    (j : String → Option String → String) (q : String) (d e : Bool) :
    (∀ (pm : List PowParams) (pages : Nat → List SnippetEnv),
      search h j q (.nspace (some d) (some e)) ⟨[], pm, pages⟩
        = .error .indexError)
  ∧ (∀ (p : String) (ps : List String) (pages : Nat → List SnippetEnv),
      search h j q (.nspace (some d) (some e)) ⟨p :: ps, [], pages⟩
        = .error .indexError) :=
  ⟨fun _ _ => rfl, fun _ _ _ => rfl⟩

/-! ## Claim C9: the options structure precondition -/

theorem search_noextra_reduce (h : String → String)
    (j : String → Option String → String) (q : String) (d : Bool)
    (w : SearchWorld) :
    search h j q (.nspace (some d) none) w =
      match findallFirst w.scriptJsMatches with
      | .error er => .error er
      | .ok _path =>
        match findallFirst w.powMatches with
        | .error er => .error er
        | .ok _pow => .error .attributeError := by
  rfl

/-- Claim C9: `search` reads `opts` by attribute access — `opts.debug`
on entry (line 74) and `opts.extra` after pagination (line 126) — so
with the default empty dict or any plain dict the generator body fails
with `AttributeError` as soon as it starts, before any network
interaction (the outcome is the same for every network world); a
namespace object missing the `debug` attribute likewise fails with
`AttributeError` before any network step, and one missing the `extra`
attribute can never yield a result list; so the entry point only works
when `opts` exposes both attributes — and with both present, the two
attribute reads themselves succeed. -/
theorem opts_requires_attributes :
    (∀ (h : String → String) (j : String → Option String → String)
        (q : String) (entries : List (String × Bool)) (w : SearchWorld),
        search h j q (.dict entries) w = .error .attributeError)
  ∧ (∀ (h : String → String) (j : String → Option String → String)
        (q : String) (ex : Option Bool) (w : SearchWorld),
        search h j q (.nspace none ex) w = .error .attributeError)
  ∧ (∀ (h : String → String) (j : String → Option String → String)
        (q : String) (d : Bool) (w : SearchWorld) (ps : List Package),
        search h j q (.nspace (some d) none) w ≠ .ok ps)
  ∧ (∀ d e : Bool, getattr (.nspace (some d) (some e)) "debug" = .ok d
        ∧ getattr (.nspace (some d) (some e)) "extra" = .ok e) := by
  refine ⟨fun h j q entries w => rfl, fun h j q ex w => rfl, ?_,
    fun d e => ⟨rfl, rfl⟩⟩
  intro h j q d w ps hc
  rw [search_noextra_reduce] at hc
  cases h1 : findallFirst w.scriptJsMatches with
  | error e1 =>
    rw [h1] at hc
    exact absurd (show (Except.error e1 : Except PyErr (List Package))
      = .ok ps from hc) (by simp)
  | ok p1 =>
    rw [h1] at hc
    cases h2 : findallFirst w.powMatches with
    | error e2 =>
      rw [h2] at hc
      exact absurd (show (Except.error e2 : Except PyErr (List Package))
        = .ok ps from hc) (by simp)
    | ok pw =>
      rw [h2] at hc
      exact absurd
        (show (Except.error PyErr.attributeError : Except PyErr (List Package))
          = .ok ps from hc) (by simp)

/-- Witness for C9: the default options value (the empty dict) and each
partial namespace fail on a concrete world. -/
theorem opts_requires_attributes_witness :
    search hStub jStub "q" (.dict []) noMatchWorld = .error .attributeError
  ∧ search hStub jStub "q" (.nspace none (some true)) noMatchWorld
      = .error .attributeError
  ∧ search hStub jStub "q" (.nspace (some false) none) noMatchWorld
      ≠ .ok [] :=
  ⟨opts_requires_attributes.1 hStub jStub "q" [] noMatchWorld,
   opts_requires_attributes.2.1 hStub jStub "q" (some true) noMatchWorld,
   opts_requires_attributes.2.2.1 hStub jStub "q" false noMatchWorld []⟩

/-- Witness for the amended C4: a concrete world with no script-URL
match fails with `IndexError`. -/
theorem protocol_error_amended_witness :
    search hStub jStub "q" (.nspace (some false) (some true))
      ⟨[], [], fun _ => []⟩ = .error .indexError :=
  (protocol_error_amended hStub jStub "q" false true).1 [] (fun _ => [])
